import Mathlib

/-!
Shallow embedding of the seat-inventory and booking core of the
sports-screening server (Express + Mongoose + Redis + Stripe), and proofs
about it.  Each definition mirrors one function of the source:

* `updateEventSeats`, `createBooking`, `cancelBooking`, `updateBooking`
  from the booking controller;
* a two-thread interleaving model of `updateEventSeats`'s
  read-then-write structure (`Event.findById` … `event.save()`);
* `bookingRateLimiter` from the rate-limit middleware;
* the read-through profile cache of `getMe` / `UserCacheService.cacheUserData`.

MongoDB documents are modelled as association lists keyed by id strings;
JavaScript numbers that hold counts or money are modelled as `Int`;
timestamps as `Nat`.  The outcome of an `await …save()` persistence call
that may reject is made explicit as a `Bool` parameter where a claim
depends on it.
-/

namespace SportsScreening

/-- The `paymentInfo.paymentStatus` enum of the booking schema. -/
inductive PaymentStatus where
  | pending
  | succeeded
  | failed
  | refunded
deriving DecidableEq, Repr

/-- The `status` enum of the booking schema. -/
inductive BookingStatus where
  | pending
  | confirmed
  | cancelled
deriving DecidableEq, Repr

/-- The `paymentInfo` subdocument of a booking (fields used by the core). -/
structure PaymentInfo where
  paymentIntentId : Option String
  paymentStatus : Option PaymentStatus
deriving DecidableEq, Repr

/-- A booking document (fields used by the core). -/
structure BookingRec where
  userId : String
  eventId : String
  quantity : Int
  price : Int
  status : BookingStatus
  paymentInfo : Option PaymentInfo
  qrCodeData : String
deriving DecidableEq, Repr

/-- An event document (fields used by the core): immutable capacity,
mutable seat counter, and the stored `date` (midnight of the event day;
the time of day is kept in a separate string field of the schema). -/
structure EventRec where
  maxOccupancy : Int
  availableSeats : Int
  date : Nat
deriving DecidableEq, Repr

/-- The persistent store: event and booking collections as association
lists keyed by document id. -/
structure Store where
  events : List (String × EventRec)
  bookings : List (String × BookingRec)
deriving DecidableEq, Repr

/-- Mirrors `Model.findById`: first association for a key. -/
def findAssoc {α : Type} : List (String × α) → String → Option α
  | [], _ => none
  | p :: rest, k => if p.1 = k then some p.2 else findAssoc rest k

/-- Mirrors `document.save()` on an existing document: replace the association
for a key (ids are unique in MongoDB, so the first match is the
document; no effect when the key is absent). -/
def setAssoc {α : Type} : List (String × α) → String → α → List (String × α)
  | [], _, _ => []
  | p :: rest, k, v => if p.1 = k then (k, v) :: rest else p :: setAssoc rest k v

/-- The `operation` argument of `updateEventSeats`. -/
inductive SeatOp where
  | decrease
  | increase
deriving DecidableEq, Repr

/-- Outcomes on which `updateEventSeats` throws: missing event,
capacity check failure (carrying the remaining seat count that the thrown
message interpolates), or a rejected `event.save()`. -/
inductive SeatErr where
  | eventNotFound
  | notEnoughSeats (remaining : Int)
  | saveFailed
deriving DecidableEq, Repr

/-- Mirrors `updateEventSeats(eventId, quantity, operation)` of the booking
controller: load the event, on `decrease` reject when
`availableSeats < quantity` (the thrown message carries
`availableSeats`), otherwise subtract; on `increase` add
unconditionally; then persist with `event.save()`.  `saveOk` is the
outcome of that `await event.save()` call (`false` = the promise
rejects, so the store keeps its old contents). -/
def updateEventSeats (saveOk : Bool) (st : Store) (eventId : String)
    (quantity : Int) (op : SeatOp) : Except SeatErr (Store × EventRec) :=
  match findAssoc st.events eventId with
  | none => .error .eventNotFound
  | some event =>
    match op with
    | .decrease =>
      if event.availableSeats < quantity then
        .error (.notEnoughSeats event.availableSeats)
      else
        let ev := { event with availableSeats := event.availableSeats - quantity }
        if saveOk then
          .ok ({ st with events := setAssoc st.events eventId ev }, ev)
        else
          .error .saveFailed
    | .increase =>
      let ev := { event with availableSeats := event.availableSeats + quantity }
      if saveOk then
        .ok ({ st with events := setAssoc st.events eventId ev }, ev)
      else
        .error .saveFailed

/-- A sequence of seat-reserving / seat-releasing calls routed through
`updateEventSeats` (persistence succeeding); a thrown error leaves the
store unchanged and the sequence continues, as every caller catches. -/
def applySeatOps (st : Store) : List (String × Int × SeatOp) → Store
  | [] => st
  | (eid, q, op) :: rest =>
    match updateEventSeats true st eid q op with
    | .ok (st2, _) => applySeatOps st2 rest
    | .error _ => applySeatOps st rest

/-- Every event of the store has a nonnegative seat counter. -/
def seatsNonneg (st : Store) : Prop :=
  ∀ id ev, findAssoc st.events id = some ev → 0 ≤ ev.availableSeats

section AssocLemmas

variable {α : Type}

theorem findAssoc_setAssoc_cases {l : List (String × α)} {k id : String}
    {v ev : α} (h : findAssoc (setAssoc l k v) id = some ev) :
    ev = v ∨ findAssoc l id = some ev := by
  induction l with
  | nil => simp [setAssoc, findAssoc] at h
  | cons p rest ih =>
    rw [setAssoc] at h
    by_cases hpk : p.1 = k
    · rw [if_pos hpk] at h
      by_cases hkid : k = id
      · rw [findAssoc, if_pos hkid] at h
        exact Or.inl (Option.some.inj h).symm
      · rw [findAssoc, if_neg hkid] at h
        refine Or.inr ?_
        rw [findAssoc, if_neg (hpk ▸ hkid)]
        exact h
    · rw [if_neg hpk] at h
      by_cases hpid : p.1 = id
      · rw [findAssoc, if_pos hpid] at h
        refine Or.inr ?_
        rw [findAssoc, if_pos hpid]
        exact h
      · rw [findAssoc, if_neg hpid] at h
        rcases ih h with h1 | h1
        · exact Or.inl h1
        · refine Or.inr ?_
          rw [findAssoc, if_neg hpid]
          exact h1

theorem findAssoc_setAssoc_self {l : List (String × α)} {k : String}
    {w : α} (h : findAssoc l k = some w) (v : α) :
    findAssoc (setAssoc l k v) k = some v := by
  induction l with
  | nil => simp [findAssoc] at h
  | cons p rest ih =>
    rw [setAssoc]
    by_cases hpk : p.1 = k
    · rw [if_pos hpk, findAssoc, if_pos rfl]
    · rw [findAssoc, if_neg hpk] at h
      rw [if_neg hpk, findAssoc, if_neg hpk]
      exact ih h

theorem setAssoc_eq_self {l : List (String × α)} {k : String} {v : α}
    (h : findAssoc l k = some v) : setAssoc l k v = l := by
  induction l with
  | nil => rfl
  | cons p rest ih =>
    rw [setAssoc]
    by_cases hpk : p.1 = k
    · rw [findAssoc, if_pos hpk] at h
      rw [if_pos hpk, ← hpk, ← Option.some.inj h, Prod.mk.eta]
    · rw [findAssoc, if_neg hpk] at h
      rw [if_neg hpk, ih h]

end AssocLemmas

theorem updateEventSeats_seatsNonneg {st st2 : Store} {eid : String}
    {q : Int} {op : SeatOp} {ev : EventRec} (hq : 0 ≤ q)
    (hst : seatsNonneg st)
    (h : updateEventSeats true st eid q op = .ok (st2, ev)) :
    seatsNonneg st2 := by
  cases hfind : findAssoc st.events eid with
  | none => simp [updateEventSeats, hfind] at h
  | some event =>
    have hev : 0 ≤ event.availableSeats := hst eid event hfind
    cases op with
    | decrease =>
      by_cases hcap : event.availableSeats < q
      · simp [updateEventSeats, hfind, hcap] at h
      · simp only [updateEventSeats, hfind, if_neg hcap, if_true] at h
        obtain ⟨hst2, -⟩ := Prod.mk.injEq .. ▸ Except.ok.inj h
        intro id ev' hfind2
        rw [← hst2] at hfind2
        rcases findAssoc_setAssoc_cases hfind2 with h1 | h1
        · rw [h1]; simp; omega
        · exact hst id ev' h1
    | increase =>
      simp only [updateEventSeats, hfind, if_true] at h
      obtain ⟨hst2, -⟩ := Prod.mk.injEq .. ▸ Except.ok.inj h
      intro id ev' hfind2
      rw [← hst2] at hfind2
      rcases findAssoc_setAssoc_cases hfind2 with h1 | h1
      · rw [h1]; simp; omega
      · exact hst id ev' h1

theorem applySeatOps_seatsNonneg (ops : List (String × Int × SeatOp)) :
    ∀ st : Store, (∀ x ∈ ops, 0 ≤ x.2.1) → seatsNonneg st →
      seatsNonneg (applySeatOps st ops) := by
  induction ops with
  | nil => intro st _ hst; exact hst
  | cons x rest ih =>
    intro st hops hst
    obtain ⟨eid, q, op⟩ := x
    rw [applySeatOps]
    cases hres : updateEventSeats true st eid q op with
    | error e => exact ih st (fun y hy => hops y (List.mem_cons_of_mem _ hy)) hst
    | ok p =>
      obtain ⟨st2, ev⟩ := p
      have hq : (0:Int) ≤ q := hops (eid, q, op) (List.mem_cons_self _ _)
      exact ih st2 (fun y hy => hops y (List.mem_cons_of_mem _ hy))
        (updateEventSeats_seatsNonneg hq hst hres)

/-- C1 counterexample: on the event `"e1"` with `maxOccupancy = 2` and
`availableSeats = 2`, a release of one further seat is not rejected:
`updateEventSeats` succeeds and stores `availableSeats = 3`, which
exceeds `maxOccupancy` — the overflow is silently applied. -/
theorem C1_counterexample :
    updateEventSeats true
        { events := [("e1", { maxOccupancy := 2, availableSeats := 2, date := 100 })],
          bookings := [] } "e1" 1 .increase =
      .ok ({ events := [("e1", { maxOccupancy := 2, availableSeats := 3, date := 100 })],
             bookings := [] },
           { maxOccupancy := 2, availableSeats := 3, date := 100 }) ∧
    (2 : Int) < 3 := by
  constructor
  · rfl
  · decide

/-- C1 (amended): across any sequence of nonnegative-quantity reserve and
release calls routed through `updateEventSeats`, `availableSeats` never
goes below 0; a reserve whose quantity exceeds `availableSeats` is
rejected carrying the actual remaining count; but a release is applied
unconditionally, so `availableSeats` can exceed `maxOccupancy` (the
overflow is silently applied, not rejected). -/
theorem C1_ledger_bounds (st : Store) (ops : List (String × Int × SeatOp))
    (eid : String) (q qty : Int) (ev : EventRec)
    (hops : ∀ x ∈ ops, 0 ≤ x.2.1) (hst : seatsNonneg st)
    (hfind : findAssoc st.events eid = some ev)
    (hover : ev.availableSeats < q) :
    seatsNonneg (applySeatOps st ops) ∧
    updateEventSeats true st eid q .decrease =
      .error (.notEnoughSeats ev.availableSeats) ∧
    ∃ st2, updateEventSeats true st eid qty .increase =
      .ok (st2, { ev with availableSeats := ev.availableSeats + qty }) := by
  refine ⟨applySeatOps_seatsNonneg ops st hops hst, ?_, ?_⟩
  · simp [updateEventSeats, hfind, hover]
  · have hstep : updateEventSeats true st eid qty .increase =
        .ok ({ st with events := setAssoc st.events eid { ev with availableSeats := ev.availableSeats + qty } }, { ev with availableSeats := ev.availableSeats + qty }) := by
      simp [updateEventSeats, hfind]
    exact ⟨_, hstep⟩

/-- Witness for `C1_ledger_bounds` at a concrete store and op sequence. -/
theorem C1_ledger_bounds_witness :
    seatsNonneg (applySeatOps
      { events := [("e1", { maxOccupancy := 5, availableSeats := 5, date := 100 })],
        bookings := [] }
      [("e1", 2, .decrease), ("e1", 9, .decrease), ("e1", 2, .increase)]) ∧
    updateEventSeats true
      { events := [("e1", { maxOccupancy := 5, availableSeats := 5, date := 100 })],
        bookings := [] } "e1" 9 .decrease =
      .error (.notEnoughSeats 5) ∧
    ∃ st2, updateEventSeats true
      { events := [("e1", { maxOccupancy := 5, availableSeats := 5, date := 100 })],
        bookings := [] } "e1" 7 .increase =
      .ok (st2, { maxOccupancy := 5, availableSeats := 5 + 7, date := 100 }) := by
  refine C1_ledger_bounds _ _ "e1" 9 7
    { maxOccupancy := 5, availableSeats := 5, date := 100 }
    (by decide) ?_ (by decide) (by decide)
  intro id ev h
  rw [findAssoc] at h
  split at h
  · rw [← Option.some.inj h]; decide
  · rw [findAssoc] at h; exact absurd h (by simp)

/-! ## Interleaving model of `updateEventSeats`'s reserve path

`updateEventSeats(…, 'decrease')` is `Event.findById` (a read), an
in-memory capacity check and subtraction on the returned copy, and
`event.save()` (a separate write of the copy's fields).  A concurrent
reserve on the same event is therefore two store round-trips; the model
below runs two such reserve calls step by step under an arbitrary
interleaving of their read and write steps. -/

/-- One in-flight reserve call: its requested quantity, its program
counter (0 = about to `findById`, 1 = about to check and `save`,
2 = finished), the seat count its `findById` returned, and its outcome. -/
structure ReserveThread where
  q : Int
  pc : Nat
  seen : Int
  ok : Option Bool
deriving DecidableEq, Repr

/-- Run one step of a reserve call against the shared seat counter:
the read step snapshots the counter; the write step checks the snapshot
and, if sufficient, saves `snapshot - q` as the new counter. -/
def stepReserve (avail : Int) (t : ReserveThread) : Int × ReserveThread :=
  match t.pc with
  | 0 => (avail, { t with pc := 1, seen := avail })
  | 1 =>
    if t.seen < t.q then (avail, { t with pc := 2, ok := some false })
    else (t.seen - t.q, { t with pc := 2, ok := some true })
  | _ => (avail, t)

/-- Two concurrent reserve calls on one event's seat counter. -/
structure TwoReserve where
  avail : Int
  tA : ReserveThread
  tB : ReserveThread
deriving DecidableEq, Repr

/-- Run the two reserve calls under a schedule (`true` = thread A
takes the next step). -/
def runSched (st : TwoReserve) : List Bool → TwoReserve
  | [] => st
  | turn :: rest =>
    if turn then
      let s := stepReserve st.avail st.tA
      runSched { st with avail := s.1, tA := s.2 } rest
    else
      let s := stepReserve st.avail st.tB
      runSched { st with avail := s.1, tB := s.2 } rest

/-- The initial state of a reserve call for quantity `q`. -/
def freshReserve (q : Int) : ReserveThread :=
  { q := q, pc := 0, seen := 0, ok := none }

/-- C2 counterexample: an event with 3 available seats, two concurrent
reserves of 2 each; under the interleaving read-A, read-B, write-A,
write-B both calls pass the capacity check and both save their
decrement (outcome `some true` for both), finishing with
`availableSeats = 1` although 4 seats were handed out — the
read-then-write implementation does not serialize concurrent reserves. -/
theorem C2_counterexample :
    runSched { avail := 3, tA := freshReserve 2, tB := freshReserve 2 }
        [true, false, true, false] =
      { avail := 1,
        tA := { q := 2, pc := 2, seen := 3, ok := some true },
        tB := { q := 2, pc := 2, seen := 3, ok := some true } } := by
  decide

/-- C2 (amended): `reserve` is implemented as a read (`findById`)
followed by a separate write (`save`) rather than a single conditional
update, so whenever two concurrent reserves each request no more than
the current seat count, the interleaving that runs both reads before
both writes lets both calls pass the capacity check and both decrement;
the final counter records only the later write's decrement. -/
theorem C2_read_then_write_race (avail qA qB : Int)
    (hA : qA ≤ avail) (hB : qB ≤ avail) :
    runSched { avail := avail, tA := freshReserve qA, tB := freshReserve qB }
        [true, false, true, false] =
      { avail := avail - qB,
        tA := { q := qA, pc := 2, seen := avail, ok := some true },
        tB := { q := qB, pc := 2, seen := avail, ok := some true } } := by
  have h1 : ¬ avail < qA := by omega
  have h2 : ¬ avail < qB := by omega
  simp [runSched, stepReserve, freshReserve, h1, h2]

/-- Witness for `C2_read_then_write_race` with 3 seats and two
concurrent reserves of 2. -/
theorem C2_read_then_write_race_witness :
    runSched { avail := 3, tA := freshReserve 2, tB := freshReserve 2 }
        [true, false, true, false] =
      { avail := 3 - 2,
        tA := { q := 2, pc := 2, seen := 3, ok := some true },
        tB := { q := 2, pc := 2, seen := 3, ok := some true } } :=
  C2_read_then_write_race 3 2 2 (by decide) (by decide)

/-! ## `createBooking` -/

/-- The `{eventId, quantity, price}` body of a booking-creation request. -/
structure CreateBookingRequest where
  eventId : String
  quantity : Int
  price : Int
deriving DecidableEq, Repr

/-- Terminal outcomes of `createBooking` (the HTTP responses it sends). -/
inductive CreateBookingResult where
  | unauthenticated
  | missingFields
  | invalidQuantityOrPrice
  | insufficientSeats (remaining : Int)
  | created (bookingId : String)
  | serverError
deriving DecidableEq, Repr

/-- Mirrors `generateQRCodeData(bookingId, userId, eventId)`:
`` `${bookingId}-${userId}-${eventId}-${Date.now()}` ``. -/
def generateQRCodeData (bookingId userId eventId : String) (now : Nat) :
    String :=
  bookingId ++ "-" ++ userId ++ "-" ++ eventId ++ "-" ++ toString now

/-- Mirrors `createBooking` of the booking controller: authenticate, validate the
body (missing / non-positive `quantity` or `price`), load the event
(`findEventById` throws when absent, which the generic handler turns into
a server error), reject when `availableSeats < quantity` with the
remaining count in the message, then `Booking.create`, re-save the QR
code with the real id, and finally `updateEventSeats(…, 'decrease')`.
`newId` is the id MongoDB assigns to the created booking; `now` is
`Date.now()`; `seatSaveOk` is the outcome of the `event.save()` inside
the final `updateEventSeats` call (a rejection propagates to the catch
block, which answers with a server error and runs no compensation). -/
def createBooking (seatSaveOk : Bool) (st : Store) (user : Option String)
    (body : CreateBookingRequest) (newId : String) (now : Nat) :
    Store × CreateBookingResult :=
  match user with
  | none => (st, .unauthenticated)
  | some uid =>
    if body.eventId = "" ∨ body.quantity = 0 ∨ body.price = 0 then
      (st, .missingFields)
    else if body.quantity ≤ 0 ∨ body.price ≤ 0 then
      (st, .invalidQuantityOrPrice)
    else
      match findAssoc st.events body.eventId with
      | none => (st, .serverError)
      | some event =>
        if event.availableSeats < body.quantity then
          (st, .insufficientSeats event.availableSeats)
        else
          let b1 : BookingRec :=
            { userId := uid, eventId := body.eventId,
              quantity := body.quantity, price := body.price,
              status := .pending, paymentInfo := none,
              qrCodeData := generateQRCodeData newId uid body.eventId now }
          let st1 : Store := { st with bookings := st.bookings ++ [(newId, b1)] }
          match updateEventSeats seatSaveOk st1 body.eventId body.quantity .decrease with
          | .ok (st2, _) => (st2, .created newId)
          | .error _ => (st1, .serverError)

/-- C3: when the requested quantity exceeds the event's current
`availableSeats`, `createBooking` answers `InsufficientCapacity`
carrying the actual remaining seat count and leaves the store — both
the seat counter and the booking collection — exactly as it was: no
partial reservation. -/
theorem C3_insufficient_capacity (seatSaveOk : Bool) (st : Store)
    (uid : String) (body : CreateBookingRequest) (newId : String)
    (now : Nat) (ev : EventRec)
    (hid : body.eventId ≠ "") (hq : 0 < body.quantity) (hp : 0 < body.price)
    (hfind : findAssoc st.events body.eventId = some ev)
    (hcap : ev.availableSeats < body.quantity) :
    createBooking seatSaveOk st (some uid) body newId now =
      (st, .insufficientSeats ev.availableSeats) := by
  rw [createBooking]
  rw [if_neg (by push_neg; exact ⟨hid, by omega, by omega⟩)]
  rw [if_neg (by push_neg; exact ⟨hq, hp⟩)]
  rw [hfind]
  simp only [if_pos hcap]

/-- Witness for `C3_insufficient_capacity`: one event with 2 seats left,
a request for 5. -/
theorem C3_insufficient_capacity_witness :
    createBooking true
        { events := [("e1", { maxOccupancy := 10, availableSeats := 2, date := 100 })],
          bookings := [] }
        (some "u1") { eventId := "e1", quantity := 5, price := 20 } "b1" 7 =
      ({ events := [("e1", { maxOccupancy := 10, availableSeats := 2, date := 100 })],
         bookings := [] },
       .insufficientSeats 2) :=
  C3_insufficient_capacity true _ "u1" _ "b1" 7
    { maxOccupancy := 10, availableSeats := 2, date := 100 }
    (by decide) (by decide) (by decide) rfl (by decide)

/-- C5 counterexample: with one event of 5 available seats and a valid
request for 2, a rejected `event.save()` inside the seat decrement makes
`createBooking` answer a server error while the booking it already
persisted stays in the store and the seat counter stays at 5 — a
persisted booking without its decrement, and no compensating release. -/
theorem C5_counterexample :
    createBooking false
        { events := [("e1", { maxOccupancy := 5, availableSeats := 5, date := 100 })],
          bookings := [] }
        (some "u1") { eventId := "e1", quantity := 2, price := 20 } "b1" 7 =
      ({ events := [("e1", { maxOccupancy := 5, availableSeats := 5, date := 100 })],
         bookings := [("b1",
           { userId := "u1", eventId := "e1", quantity := 2, price := 20,
             status := .pending, paymentInfo := none,
             qrCodeData := "b1-u1-e1-7" })] },
       .serverError) := by
  rfl

/-- C5 (amended): `createBooking` persists the booking before issuing
the ledger decrement and has no compensating rollback.  When the
decrement's persistence succeeds, booking and decrement are both
committed; when it fails after the booking was persisted, the request
ends in a server error with the booking still stored and the seat
counter untouched — a persisted booking without its decrement. -/
theorem C5_no_compensation (st : Store) (uid : String)
    (body : CreateBookingRequest) (newId : String) (now : Nat)
    (ev : EventRec)
    (hid : body.eventId ≠ "") (hq : 0 < body.quantity) (hp : 0 < body.price)
    (hfind : findAssoc st.events body.eventId = some ev)
    (hcap : ¬ ev.availableSeats < body.quantity) :
    (createBooking false st (some uid) body newId now =
      ({ st with bookings := st.bookings ++
          [(newId,
            { userId := uid, eventId := body.eventId,
              quantity := body.quantity, price := body.price,
              status := .pending, paymentInfo := none,
              qrCodeData := generateQRCodeData newId uid body.eventId now })] },
       .serverError)) ∧
    (createBooking true st (some uid) body newId now =
      ({ st with
          events := setAssoc st.events body.eventId
            { ev with availableSeats := ev.availableSeats - body.quantity },
          bookings := st.bookings ++
            [(newId,
              { userId := uid, eventId := body.eventId,
                quantity := body.quantity, price := body.price,
                status := .pending, paymentInfo := none,
                qrCodeData := generateQRCodeData newId uid body.eventId now })] },
       .created newId)) := by
  constructor
  · rw [createBooking]
    rw [if_neg (by push_neg; exact ⟨hid, by omega, by omega⟩)]
    rw [if_neg (by push_neg; exact ⟨hq, hp⟩)]
    rw [hfind]
    simp [if_neg hcap, updateEventSeats, hfind]
  · rw [createBooking]
    rw [if_neg (by push_neg; exact ⟨hid, by omega, by omega⟩)]
    rw [if_neg (by push_neg; exact ⟨hq, hp⟩)]
    rw [hfind]
    simp [if_neg hcap, updateEventSeats, hfind]

/-- Witness for `C5_no_compensation` at a concrete store and request. -/
theorem C5_no_compensation_witness :
    (createBooking false
        { events := [("e1", { maxOccupancy := 5, availableSeats := 5, date := 100 })],
          bookings := [] }
        (some "u1") { eventId := "e1", quantity := 2, price := 20 } "b1" 7 =
      ({ events := [("e1", { maxOccupancy := 5, availableSeats := 5, date := 100 })],
         bookings := [] ++ [("b1",
           { userId := "u1", eventId := "e1", quantity := 2, price := 20,
             status := .pending, paymentInfo := none,
             qrCodeData := generateQRCodeData "b1" "u1" "e1" 7 })] },
       .serverError)) ∧
    (createBooking true
        { events := [("e1", { maxOccupancy := 5, availableSeats := 5, date := 100 })],
          bookings := [] }
        (some "u1") { eventId := "e1", quantity := 2, price := 20 } "b1" 7 =
      ({ events := setAssoc
            [("e1", { maxOccupancy := 5, availableSeats := 5, date := 100 })] "e1"
            { maxOccupancy := 5, availableSeats := 5 - 2, date := 100 },
         bookings := [] ++ [("b1",
           { userId := "u1", eventId := "e1", quantity := 2, price := 20,
             status := .pending, paymentInfo := none,
             qrCodeData := generateQRCodeData "b1" "u1" "e1" 7 })] },
       .created "b1")) :=
  C5_no_compensation _ "u1" _ "b1" 7
    { maxOccupancy := 5, availableSeats := 5, date := 100 }
    (by decide) (by decide) (by decide) rfl (by decide)

/-! ## `cancelBooking` and `updateBooking` -/

/-- Terminal outcomes of `cancelBooking`.  `success` carries whether a
Stripe refund was actually issued (the source's `refundResult` is
non-null exactly then; an attempted refund whose Stripe call throws is
swallowed and leaves `refundResult` null). -/
inductive CancelResult where
  | unauthenticated
  | missingId
  | bookingNotFound
  | forbidden
  | eventNotFound
  | pastEvent
  | serverError
  | success (refundIssued : Bool)
deriving DecidableEq, Repr

/-- Mirrors `booking.paymentInfo.paymentStatus = 'refunded'` (applied to the
subdocument). -/
def markRefunded (pi : PaymentInfo) : PaymentInfo :=
  { pi with paymentStatus := some PaymentStatus.refunded }

/-- The condition under which `cancelBooking` attempts a Stripe refund:
`booking.paymentInfo?.paymentIntentId && booking.paymentInfo?.paymentStatus === 'succeeded'`. -/
def refundAttempted (b : BookingRec) : Bool :=
  b.paymentInfo.elim false (fun pi =>
    pi.paymentIntentId.isSome && pi.paymentStatus == some PaymentStatus.succeeded)

/-- The booking record as `cancelBooking` saves it: `status = 'cancelled'`
and, when `paymentInfo` exists, `paymentInfo.paymentStatus = 'refunded'`. -/
def cancelledBooking (b : BookingRec) : BookingRec :=
  { b with
      status := BookingStatus.cancelled,
      paymentInfo := b.paymentInfo.map markRefunded }

/-- Mirrors `cancelBooking` of the booking controller: authenticate, load the
booking, reject any non-owner with 403 (there is no admin bypass and no
check of the booking's current status), load the event, reject when
`event.date <= new Date()`, attempt a Stripe refund only when
`paymentInfo.paymentIntentId` is set and `paymentInfo.paymentStatus`
is `'succeeded'` (a refund failure is logged and cancellation
continues), release the seats with `updateEventSeats(…, 'increase')`,
then set `status = 'cancelled'` and — whenever `paymentInfo` exists —
`paymentInfo.paymentStatus = 'refunded'`, and save.  `refundOk` is the
outcome of the `stripe.refunds.create` call; `now` is `new Date()`. -/
def cancelBooking (refundOk : Bool) (st : Store) (user : Option String)
    (bookingId : String) (now : Nat) : Store × CancelResult :=
  match user with
  | none => (st, .unauthenticated)
  | some uid =>
    if bookingId = "" then (st, .missingId)
    else
      match findAssoc st.bookings bookingId with
      | none => (st, .bookingNotFound)
      | some booking =>
        if booking.userId ≠ uid then (st, .forbidden)
        else
          match findAssoc st.events booking.eventId with
          | none => (st, .eventNotFound)
          | some event =>
            if event.date ≤ now then (st, .pastEvent)
            else
              let refundIssued := refundAttempted booking && refundOk
              match updateEventSeats true st booking.eventId booking.quantity .increase with
              | .error _ => (st, .serverError)
              | .ok (st2, _) =>
                ({ st2 with bookings :=
                    setAssoc st2.bookings bookingId (cancelledBooking booking) },
                 .success refundIssued)

/-- The `{status, paymentStatus}` body of a booking-update request
(JavaScript truthiness of the fields modelled as `Option`). -/
structure UpdateBookingBody where
  status : Option BookingStatus
  paymentStatus : Option PaymentStatus
deriving DecidableEq, Repr

/-- Terminal outcomes of `updateBooking`. -/
inductive UpdateResult where
  | unauthenticated
  | bookingNotFound
  | forbidden
  | success
deriving DecidableEq, Repr

/-- Mirrors `updateBooking` of the booking controller: authenticate, load the
booking, reject non-owners, then overwrite `status` with any
caller-supplied value, overwrite `paymentInfo.paymentStatus` with any
caller-supplied value (creating an empty `paymentInfo` first when
absent), and save.  No current-state guard restricts either write. -/
def updateBooking (st : Store) (user : Option String) (bookingId : String)
    (body : UpdateBookingBody) : Store × UpdateResult :=
  match user with
  | none => (st, .unauthenticated)
  | some uid =>
    match findAssoc st.bookings bookingId with
    | none => (st, .bookingNotFound)
    | some booking =>
      if booking.userId ≠ uid then (st, .forbidden)
      else
        let b1 := match body.status with
          | some s => { booking with status := s }
          | none => booking
        let pi0 : PaymentInfo := { paymentIntentId := none, paymentStatus := none }
        let b2 := match body.paymentStatus with
          | some ps =>
            let pi1 := b1.paymentInfo.getD pi0
            { b1 with paymentInfo := some { pi1 with paymentStatus := some ps } }
          | none => b1
        ({ st with bookings := setAssoc st.bookings bookingId b2 }, .success)

/-- On the success path (owner, existing future event), `cancelBooking`
releases the seats unconditionally, marks the booking `cancelled`,
rewrites any `paymentInfo.paymentStatus` to `refunded`, and reports a
refund exactly when one was attempted (`paymentIntentId` present and
`paymentStatus = succeeded`) and the Stripe call succeeded. -/
theorem cancelBooking_success_eq (refundOk : Bool) (st : Store)
    (uid bid : String) (now : Nat) (b : BookingRec) (ev : EventRec)
    (hbid : ¬ bid = "")
    (hfindb : findAssoc st.bookings bid = some b)
    (huser : b.userId = uid)
    (hfinde : findAssoc st.events b.eventId = some ev)
    (hdate : ¬ ev.date ≤ now) :
    cancelBooking refundOk st (some uid) bid now =
      ({ events := setAssoc st.events b.eventId { ev with availableSeats := ev.availableSeats + b.quantity },
          bookings := setAssoc st.bookings bid (cancelledBooking b) },
       .success (refundAttempted b && refundOk)) := by
  simp [cancelBooking, hbid, hfindb, huser, hfinde, hdate, updateEventSeats]

/-- C4 counterexample: a booking that is already `cancelled` (owner
`"u1"`, quantity 2) on an event with 5 available seats and a future
date: `cancelBooking` does not reject it — it succeeds again and raises
`availableSeats` to 7, double-releasing the seats. -/
theorem C4_counterexample :
    cancelBooking true
        { events := [("e1", { maxOccupancy := 10, availableSeats := 5, date := 100 })],
          bookings := [("b1",
            { userId := "u1", eventId := "e1", quantity := 2, price := 20,
              status := .cancelled, paymentInfo := none, qrCodeData := "qr" })] }
        (some "u1") "b1" 50 =
      ({ events := [("e1", { maxOccupancy := 10, availableSeats := 7, date := 100 })],
         bookings := [("b1",
           { userId := "u1", eventId := "e1", quantity := 2, price := 20,
             status := .cancelled, paymentInfo := none, qrCodeData := "qr" })] },
       .success false) := by
  rfl

/-- C4 (amended): no guard keeps a booking in `cancelled`.
`cancelBooking` never inspects the booking's status, so cancelling an
already-`cancelled` booking (owner, future event) succeeds again and
adds its quantity to `availableSeats` a second time; and `updateBooking`
overwrites the status of a `cancelled` booking with any caller-supplied
value, including `pending` or `confirmed`. -/
theorem C4_cancelled_not_terminal (refundOk : Bool) (st : Store)
    (uid bid : String) (now : Nat) (b : BookingRec) (ev : EventRec)
    (s : BookingStatus)
    (hbid : ¬ bid = "")
    (hfindb : findAssoc st.bookings bid = some b)
    (hcancelled : b.status = .cancelled)
    (huser : b.userId = uid)
    (hfinde : findAssoc st.events b.eventId = some ev)
    (hdate : ¬ ev.date ≤ now) :
    (∃ st2 r, cancelBooking refundOk st (some uid) bid now = (st2, .success r) ∧
      findAssoc st2.events b.eventId =
        some { ev with availableSeats := ev.availableSeats + b.quantity }) ∧
    updateBooking st (some uid) bid { status := some s, paymentStatus := none } =
      ({ st with bookings := setAssoc st.bookings bid { b with status := s } },
       .success) := by
  constructor
  · refine ⟨_, _, cancelBooking_success_eq refundOk st uid bid now b ev
      hbid hfindb huser hfinde hdate, ?_⟩
    exact findAssoc_setAssoc_self hfinde _
  · simp [updateBooking, hfindb, huser]

/-- Witness for `C4_cancelled_not_terminal` at the concrete store of the
counterexample, moving the cancelled booking back to `confirmed`. -/
theorem C4_cancelled_not_terminal_witness :
    (∃ st2 r, cancelBooking true
        { events := [("e1", { maxOccupancy := 10, availableSeats := 5, date := 100 })],
          bookings := [("b1",
            { userId := "u1", eventId := "e1", quantity := 2, price := 20,
              status := .cancelled, paymentInfo := none, qrCodeData := "qr" })] }
        (some "u1") "b1" 50 = (st2, .success r) ∧
      findAssoc st2.events "e1" =
        some { maxOccupancy := 10, availableSeats := 5 + 2, date := 100 }) ∧
    updateBooking
        { events := [("e1", { maxOccupancy := 10, availableSeats := 5, date := 100 })],
          bookings := [("b1",
            { userId := "u1", eventId := "e1", quantity := 2, price := 20,
              status := .cancelled, paymentInfo := none, qrCodeData := "qr" })] }
        (some "u1") "b1" { status := some .confirmed, paymentStatus := none } =
      ({ events := [("e1", { maxOccupancy := 10, availableSeats := 5, date := 100 })],
         bookings := setAssoc
           [("b1",
             { userId := "u1", eventId := "e1", quantity := 2, price := 20,
               status := .cancelled, paymentInfo := none, qrCodeData := "qr" })]
           "b1"
           { userId := "u1", eventId := "e1", quantity := 2, price := 20,
             status := .confirmed, paymentInfo := none, qrCodeData := "qr" } },
       .success) :=
  C4_cancelled_not_terminal true _ "u1" "b1" 50
    { userId := "u1", eventId := "e1", quantity := 2, price := 20,
      status := .cancelled, paymentInfo := none, qrCodeData := "qr" }
    { maxOccupancy := 10, availableSeats := 5, date := 100 }
    .confirmed (by decide) rfl rfl rfl rfl (by decide)

/-- C6: cancellation is guarded by ownership and event time.  A
requester other than the booking's owner receives `forbidden` with the
store untouched; once the event's scheduled start (any instant at or
after the stored event date) has passed, the request is rejected with
the store untouched regardless of the booking's status (as `forbidden`
when additionally not the owner, as a past-event error otherwise); and
a success outcome can only arise for the owner before the event date. -/
theorem C6_cancel_guards (refundOk : Bool) (st : Store) (uid bid : String)
    (now startTime : Nat) (b : BookingRec) (ev : EventRec)
    (hbid : ¬ bid = "")
    (hfindb : findAssoc st.bookings bid = some b)
    (hfinde : findAssoc st.events b.eventId = some ev) :
    (b.userId ≠ uid → cancelBooking refundOk st (some uid) bid now = (st, .forbidden)) ∧
    (ev.date ≤ startTime → startTime ≤ now →
      cancelBooking refundOk st (some uid) bid now = (st, .pastEvent) ∨
      cancelBooking refundOk st (some uid) bid now = (st, .forbidden)) ∧
    (∀ st2 r, cancelBooking refundOk st (some uid) bid now = (st2, .success r) →
      b.userId = uid ∧ now < ev.date) := by
  refine ⟨?_, ?_, ?_⟩
  · intro hown
    simp [cancelBooking, hbid, hfindb, hown]
  · intro hstart hnow
    by_cases hown : b.userId = uid
    · refine Or.inl ?_
      simp [cancelBooking, hbid, hfindb, hown, hfinde, show ev.date ≤ now by omega]
    · exact Or.inr (by simp [cancelBooking, hbid, hfindb, hown])
  · intro st2 r h
    by_cases hown : b.userId = uid
    · by_cases hdate : ev.date ≤ now
      · rw [cancelBooking] at h
        simp [hbid, hfindb, hown, hfinde, hdate] at h
      · exact ⟨hown, by omega⟩
    · rw [cancelBooking] at h
      simp [hbid, hfindb, hown] at h

/-- Witness for `C6_cancel_guards`: a stranger's attempt is forbidden,
and after the start time the owner's attempt is rejected as past-event. -/
theorem C6_cancel_guards_witness :
    (("u1" : String) ≠ "u2" → cancelBooking true
        { events := [("e1", { maxOccupancy := 10, availableSeats := 5, date := 100 })],
          bookings := [("b1",
            { userId := "u1", eventId := "e1", quantity := 2, price := 20,
              status := .confirmed, paymentInfo := none, qrCodeData := "qr" })] }
        (some "u2") "b1" 150 =
      ({ events := [("e1", { maxOccupancy := 10, availableSeats := 5, date := 100 })],
         bookings := [("b1",
           { userId := "u1", eventId := "e1", quantity := 2, price := 20,
             status := .confirmed, paymentInfo := none, qrCodeData := "qr" })] },
       .forbidden)) ∧
    ((100 : Nat) ≤ 120 → (120 : Nat) ≤ 150 →
      cancelBooking true
        { events := [("e1", { maxOccupancy := 10, availableSeats := 5, date := 100 })],
          bookings := [("b1",
            { userId := "u1", eventId := "e1", quantity := 2, price := 20,
              status := .confirmed, paymentInfo := none, qrCodeData := "qr" })] }
        (some "u2") "b1" 150 =
      ({ events := [("e1", { maxOccupancy := 10, availableSeats := 5, date := 100 })],
         bookings := [("b1",
           { userId := "u1", eventId := "e1", quantity := 2, price := 20,
             status := .confirmed, paymentInfo := none, qrCodeData := "qr" })] },
       .pastEvent) ∨
      cancelBooking true
        { events := [("e1", { maxOccupancy := 10, availableSeats := 5, date := 100 })],
          bookings := [("b1",
            { userId := "u1", eventId := "e1", quantity := 2, price := 20,
              status := .confirmed, paymentInfo := none, qrCodeData := "qr" })] }
        (some "u2") "b1" 150 =
      ({ events := [("e1", { maxOccupancy := 10, availableSeats := 5, date := 100 })],
         bookings := [("b1",
           { userId := "u1", eventId := "e1", quantity := 2, price := 20,
             status := .confirmed, paymentInfo := none, qrCodeData := "qr" })] },
       .forbidden)) ∧
    (∀ st2 r, cancelBooking true
        { events := [("e1", { maxOccupancy := 10, availableSeats := 5, date := 100 })],
          bookings := [("b1",
            { userId := "u1", eventId := "e1", quantity := 2, price := 20,
              status := .confirmed, paymentInfo := none, qrCodeData := "qr" })] }
        (some "u2") "b1" 150 = (st2, .success r) →
      ("u1" : String) = "u2" ∧ (150 : Nat) < 100) :=
  C6_cancel_guards true _ "u2" "b1" 150 120
    { userId := "u1", eventId := "e1", quantity := 2, price := 20,
      status := .confirmed, paymentInfo := none, qrCodeData := "qr" }
    { maxOccupancy := 10, availableSeats := 5, date := 100 }
    (by decide) rfl rfl

/-- C7: a duplicate payment-success callback — a booking-update request
setting `status` to `confirmed` on a booking that is already
`confirmed` — answers success, not an error, and leaves the entire
store unchanged: the booking keeps `status = confirmed` and no second
state transition or seat mutation happens. -/
theorem C7_duplicate_confirm_noop (st : Store) (uid bid : String)
    (b : BookingRec)
    (hfindb : findAssoc st.bookings bid = some b)
    (hstatus : b.status = .confirmed)
    (huser : b.userId = uid) :
    updateBooking st (some uid) bid
        { status := some .confirmed, paymentStatus := none } =
      (st, .success) := by
  have hb : { b with status := BookingStatus.confirmed } = b := by
    cases b with
    | mk u e q p stt pi qr =>
      cases hstatus
      rfl
  simp only [updateBooking, hfindb]
  rw [if_neg (show ¬ b.userId ≠ uid by simp [huser])]
  simp [hb, setAssoc_eq_self hfindb]

/-- Witness for `C7_duplicate_confirm_noop` on a confirmed booking. -/
theorem C7_duplicate_confirm_noop_witness :
    updateBooking
        { events := [("e1", { maxOccupancy := 10, availableSeats := 5, date := 100 })],
          bookings := [("b1",
            { userId := "u1", eventId := "e1", quantity := 2, price := 20,
              status := .confirmed, paymentInfo := none, qrCodeData := "qr" })] }
        (some "u1") "b1" { status := some .confirmed, paymentStatus := none } =
      ({ events := [("e1", { maxOccupancy := 10, availableSeats := 5, date := 100 })],
         bookings := [("b1",
           { userId := "u1", eventId := "e1", quantity := 2, price := 20,
             status := .confirmed, paymentInfo := none, qrCodeData := "qr" })] },
       .success) :=
  C7_duplicate_confirm_noop _ "u1" "b1"
    { userId := "u1", eventId := "e1", quantity := 2, price := 20,
      status := .confirmed, paymentInfo := none, qrCodeData := "qr" }
    rfl rfl rfl

/-- C10: every successful cancellation of a booking that carries
`paymentInfo` stores `paymentStatus = refunded` unconditionally, and a
refund was actually issued only when a payment had succeeded (intent id
present, status `succeeded`) and the Stripe call went through — so
`refunded` does not imply a refund happened. -/
theorem C10_refunded_unconditional (refundOk : Bool) (st : Store)
    (uid bid : String) (now : Nat) (b : BookingRec) (pinfo : PaymentInfo)
    (ev : EventRec)
    (hbid : ¬ bid = "")
    (hfindb : findAssoc st.bookings bid = some b)
    (huser : b.userId = uid)
    (hpi : b.paymentInfo = some pinfo)
    (hfinde : findAssoc st.events b.eventId = some ev)
    (hdate : ¬ ev.date ≤ now) :
    ∃ st2 issued,
      cancelBooking refundOk st (some uid) bid now = (st2, .success issued) ∧
      findAssoc st2.bookings bid =
        some { b with status := BookingStatus.cancelled,
                      paymentInfo := some (markRefunded pinfo) } ∧
      (issued = true →
        pinfo.paymentIntentId.isSome = true ∧
        pinfo.paymentStatus = some PaymentStatus.succeeded ∧
        refundOk = true) := by
  refine ⟨_, _, cancelBooking_success_eq refundOk st uid bid now b ev
    hbid hfindb huser hfinde hdate, ?_, ?_⟩
  · rw [findAssoc_setAssoc_self hfindb _]
    simp [cancelledBooking, hpi, markRefunded]
  · intro hissued
    rw [refundAttempted, hpi] at hissued
    simp only [Option.elim_some, Bool.and_eq_true, beq_iff_eq] at hissued
    exact ⟨hissued.1.1, hissued.1.2, hissued.2⟩

/-- Witness for `C10_refunded_unconditional`: a cancellation whose
payment never succeeded (`paymentStatus = pending`) still ends with
`paymentStatus = refunded` and no refund issued. -/
theorem C10_refunded_unconditional_witness :
    ∃ st2 issued,
      cancelBooking false
        { events := [("e1", { maxOccupancy := 10, availableSeats := 5, date := 100 })],
          bookings := [("b1",
            { userId := "u1", eventId := "e1", quantity := 2, price := 20,
              status := .confirmed,
              paymentInfo := some { paymentIntentId := some "pi1",
                                    paymentStatus := some .pending },
              qrCodeData := "qr" })] }
        (some "u1") "b1" 50 = (st2, .success issued) ∧
      findAssoc st2.bookings "b1" =
        some { userId := "u1", eventId := "e1", quantity := 2, price := 20,
               status := .cancelled,
               paymentInfo := some { paymentIntentId := some "pi1",
                                     paymentStatus := some .refunded },
               qrCodeData := "qr" } ∧
      (issued = true →
        (Option.isSome (some "pi1") = true) ∧
        (some PaymentStatus.pending = some PaymentStatus.succeeded) ∧
        (false : Bool) = true) :=
  C10_refunded_unconditional false
    { events := [("e1", { maxOccupancy := 10, availableSeats := 5, date := 100 })],
      bookings := [("b1",
        { userId := "u1", eventId := "e1", quantity := 2, price := 20,
          status := .confirmed,
          paymentInfo := some { paymentIntentId := some "pi1",
                                paymentStatus := some .pending },
          qrCodeData := "qr" })] }
    "u1" "b1" 50
    { userId := "u1", eventId := "e1", quantity := 2, price := 20,
      status := .confirmed,
      paymentInfo := some { paymentIntentId := some "pi1",
                            paymentStatus := some .pending },
      qrCodeData := "qr" }
    { paymentIntentId := some "pi1", paymentStatus := some .pending }
    { maxOccupancy := 10, availableSeats := 5, date := 100 }
    (by decide) rfl rfl rfl rfl (by decide)

/-! ## `bookingRateLimiter`

The booking rate limiter keeps one Redis key per actor:
`INCR` the counter, on a post-increment value of 1 `EXPIRE` it to the
window length, and deny with the key's `TTL` once the count exceeds the
ceiling.  The model below is the state of that one key; a key whose
expiry has passed is absent (Redis deletes it), so `INCR` recreates it
at 1 with no expiry, exactly as the middleware assumes. -/

def WINDOW_SIZE_IN_SECONDS : Nat := 60

def MAX_REQUESTS : Nat := 5

/-- The Redis counter key: its integer value and its expiry instant
(`none` when no expiry has been set on it). -/
structure RateEntry where
  count : Nat
  expiresAt : Option Nat
deriving DecidableEq, Repr

/-- A key whose expiry instant has passed is gone. -/
def liveEntry (e : Option RateEntry) (now : Nat) : Option RateEntry :=
  match e with
  | none => none
  | some en =>
    match en.expiresAt with
    | none => some en
    | some t => if t ≤ now then none else some en

/-- Redis `TTL`: remaining lifetime of a live key, `-1` without expiry. -/
def ttlOf (e : RateEntry) (now : Nat) : Int :=
  match e.expiresAt with
  | some t => (t : Int) - (now : Int)
  | none => -1

/-- Outcome of one pass through the middleware: call `next()` or answer
429 with the key's TTL as the retry hint. -/
inductive RateResult where
  | allowed
  | denied (retryAfter : Int)
deriving DecidableEq, Repr

/-- Mirrors `bookingRateLimiter` of the rate-limit middleware, acting on the
actor's counter key at time `now`: `redis.incr`; if the post-increment
value is 1, `redis.expire(key, WINDOW_SIZE_IN_SECONDS)`; if the value
exceeds `MAX_REQUESTS`, answer 429 carrying `redis.ttl(key)`. -/
def bookingRateLimiter (st : Option RateEntry) (now : Nat) :
    Option RateEntry × RateResult :=
  let live := liveEntry st now
  let newCount := (match live with | some en => en.count | none => 0) + 1
  let withCount : RateEntry :=
    match live with
    | some en => { en with count := newCount }
    | none => { count := newCount, expiresAt := none }
  let entry :=
    if newCount = 1 then
      { withCount with expiresAt := some (now + WINDOW_SIZE_IN_SECONDS) }
    else withCount
  if MAX_REQUESTS < newCount then
    (some entry, .denied (ttlOf entry now))
  else
    (some entry, .allowed)

/-- A sequence of requests from one actor at the given times. -/
def runRateLimiter (st : Option RateEntry) :
    List Nat → Option RateEntry × List RateResult
  | [] => (st, [])
  | t :: rest =>
    let step := bookingRateLimiter st t
    let next := runRateLimiter step.1 rest
    (next.1, step.2 :: next.2)

theorem bookingRateLimiter_first (now : Nat) :
    bookingRateLimiter none now =
      (some { count := 1, expiresAt := some (now + WINDOW_SIZE_IN_SECONDS) },
       .allowed) :=
  rfl

theorem bookingRateLimiter_allowed (k T now : Nat) (hT : now < T)
    (hk : 1 ≤ k) (hmax : k + 1 ≤ MAX_REQUESTS) :
    bookingRateLimiter (some { count := k, expiresAt := some T }) now =
      (some { count := k + 1, expiresAt := some T }, .allowed) := by
  have h1 : ¬ T ≤ now := by omega
  have h2 : ¬ (k + 1 = 1) := by omega
  have h3 : ¬ (MAX_REQUESTS < k + 1) := by omega
  simp [bookingRateLimiter, liveEntry, h1, h2, h3]

theorem bookingRateLimiter_denied (k T now : Nat) (hT : now < T)
    (hk : 1 ≤ k) (hmax : MAX_REQUESTS < k + 1) :
    bookingRateLimiter (some { count := k, expiresAt := some T }) now =
      (some { count := k + 1, expiresAt := some T },
       .denied ((T : Int) - (now : Int))) := by
  have h1 : ¬ T ≤ now := by omega
  have h2 : ¬ (k + 1 = 1) := by omega
  simp [bookingRateLimiter, liveEntry, ttlOf, h1, h2, hmax]

/-- C8: the governor is a fixed-window counter.  The first request of a
window sets the key's expiry to the 60-second window length; for six
requests from one actor at nondecreasing times inside one window, the
first five are allowed and the sixth is denied with the key's remaining
time-to-live as the retry hint — a value that is positive and at most
60 seconds. -/
theorem C8_fixed_window (t0 t1 t2 t3 t4 t5 : Nat)
    (h01 : t0 ≤ t1) (h12 : t1 ≤ t2) (h23 : t2 ≤ t3) (h34 : t3 ≤ t4)
    (h45 : t4 ≤ t5) (hwin : t5 < t0 + 60) :
    (∀ t, bookingRateLimiter none t =
      (some { count := 1, expiresAt := some (t + 60) }, .allowed)) ∧
    runRateLimiter none [t0, t1, t2, t3, t4, t5] =
      (some { count := 6, expiresAt := some (t0 + 60) },
       [.allowed, .allowed, .allowed, .allowed, .allowed,
        .denied (((t0 + 60 : Nat) : Int) - (t5 : Int))]) ∧
    0 < ((t0 + 60 : Nat) : Int) - (t5 : Int) ∧
    ((t0 + 60 : Nat) : Int) - (t5 : Int) ≤ 60 := by
  refine ⟨fun t => rfl, ?_, by omega, by omega⟩
  have s0 : bookingRateLimiter none t0 =
      (some { count := 1, expiresAt := some (t0 + 60) }, .allowed) := rfl
  have s1 := bookingRateLimiter_allowed 1 (t0 + 60) t1
    (by omega) (by omega) (by decide)
  have s2 := bookingRateLimiter_allowed 2 (t0 + 60) t2
    (by omega) (by omega) (by decide)
  have s3 := bookingRateLimiter_allowed 3 (t0 + 60) t3
    (by omega) (by omega) (by decide)
  have s4 := bookingRateLimiter_allowed 4 (t0 + 60) t4
    (by omega) (by omega) (by decide)
  have s5 := bookingRateLimiter_denied 5 (t0 + 60) t5
    (by omega) (by omega) (by decide)
  simp only [runRateLimiter, s0, s1, s2, s3, s4, s5]

/-- Witness for `C8_fixed_window`: requests at seconds 0, 10, 20, 30,
40, 50 of one window. -/
theorem C8_fixed_window_witness :
    (∀ t, bookingRateLimiter none t =
      (some { count := 1, expiresAt := some (t + 60) }, .allowed)) ∧
    runRateLimiter none [0, 10, 20, 30, 40, 50] =
      (some { count := 6, expiresAt := some (0 + 60) },
       [.allowed, .allowed, .allowed, .allowed, .allowed,
        .denied (((0 + 60 : Nat) : Int) - ((50 : Nat) : Int))]) ∧
    0 < ((0 + 60 : Nat) : Int) - ((50 : Nat) : Int) ∧
    ((0 + 60 : Nat) : Int) - ((50 : Nat) : Int) ≤ 60 :=
  C8_fixed_window 0 10 20 30 40 50 (by decide) (by decide) (by decide)
    (by decide) (by decide) (by decide)

/-! ## Read-through profile cache (`getMe` with `UserCacheService`) -/

/-- A cache entry as `UserCacheService.set` stores it: the serialized
snapshot and the TTL it was stored with. -/
structure CacheEntry where
  value : String
  ttl : Int
deriving DecidableEq, Repr

/-- Mirrors `UserCacheService.cacheUserData(userId, userData, jwtExpiration)`:
`ttl = Math.max(jwtExpiration - now, 60)` — the JWT's remaining
lifetime, floor-clamped to a minimum of 60 seconds — with
`now = Math.floor(Date.now() / 1000)`; stores the serialized snapshot
with that TTL. -/
def cacheUserData (userData : String) (jwtExpiration now : Int) : CacheEntry :=
  { value := userData, ttl := max (jwtExpiration - now) 60 }

/-- What one `getMe` request did: the snapshot served, whether the
authoritative database loader (`findUserById`) ran, and the cache
state afterwards. -/
structure GetMeOutcome where
  served : String
  loaderInvoked : Bool
  cacheAfter : Option CacheEntry
deriving DecidableEq, Repr

/-- The read-through cache consultation of `getMe`: try
`getCachedUserData`; on a hit serve the cached snapshot without
querying the database; on a miss run `findUserById`, cache the result
via `cacheUserData` keyed to the JWT expiry `jwtExpiration`
(`decoded.exp`), and serve it. -/
def getMe (cache : Option CacheEntry) (dbUser : String)
    (jwtExpiration now : Int) : GetMeOutcome :=
  match cache with
  | some entry =>
    { served := entry.value, loaderInvoked := false, cacheAfter := some entry }
  | none =>
    { served := dbUser, loaderInvoked := true,
      cacheAfter := some (cacheUserData dbUser jwtExpiration now) }

/-- C9: on a hit the read-through cache returns the cached snapshot
without invoking the loader and leaves the cache untouched; on a miss
it invokes the loader, stores the loaded value with
`TTL = max(jwtExpiration - now, 60)`, and returns the loaded value. -/
theorem C9_read_through (cache : Option CacheEntry) (dbUser : String)
    (jwtExpiration now : Int) :
    (∀ entry, cache = some entry →
      getMe cache dbUser jwtExpiration now =
        { served := entry.value, loaderInvoked := false,
          cacheAfter := some entry }) ∧
    (cache = none →
      getMe cache dbUser jwtExpiration now =
        { served := dbUser, loaderInvoked := true,
          cacheAfter := some { value := dbUser,
                               ttl := max (jwtExpiration - now) 60 } }) := by
  constructor
  · intro entry h
    rw [h]
    rfl
  · intro h
    rw [h]
    rfl

/-- Witness for `C9_read_through`: a hit on a cached snapshot and a miss
that stores the loaded value with `TTL = max(1000 - 900, 60) = 100`. -/
theorem C9_read_through_witness :
    getMe (some { value := "cached", ttl := 42 }) "db" 1000 900 =
      { served := "cached", loaderInvoked := false,
        cacheAfter := some { value := "cached", ttl := 42 } } ∧
    getMe none "db" 1000 900 =
      { served := "db", loaderInvoked := true,
        cacheAfter := some { value := "db", ttl := max (1000 - 900) 60 } } :=
  ⟨(C9_read_through (some { value := "cached", ttl := 42 }) "db" 1000 900).1
      { value := "cached", ttl := 42 } rfl,
   (C9_read_through none "db" 1000 900).2 rfl⟩

end SportsScreening
